import Mathlib

/-!
Shallow embedding of the `ai_crm_automation` package: the resilient
transport (`utils/api_client.py`), the error model (`utils/error_handler.py`),
the CRM record service (`agents/hubspot_agent.py`), the notification agent
(`agents/email_agent.py`) and the coordinator (`agents/orchestrator_agent.py`).

Machine-level conventions: Python `Optional[str]` becomes `Option String`,
Python floats used for deal amounts become exact rationals `ℚ` (every amount
in the claims is exactly representable), Python dicts built by sequential
`d[k] = v` insertion become association lists in insertion order, and a raised
exception becomes an `Except` error value.  External collaborators (the remote
CRM REST API, the LLM tool-selection engine) are modelled explicitly where a
claim needs them; such definitions carry a `Modelled from the spec:` comment.
-/

/-- A minimal JSON value, the shape of decoded response bodies. -/
inductive JsonVal where
  | obj (fields : List (String × JsonVal))
  | arr (elems : List JsonVal)
  | str (s : String)
  | num (q : ℚ)
  | boolean (b : Bool)
  | null

/-- The decoded body of an HTTP response: structured JSON when the response
declared a JSON content type and parsed, otherwise the raw text. -/
inductive BodyVal where
  | json (j : JsonVal)
  | text (s : String)

/-- `error_handler.ApiError`: terminal HTTP failure carrying status, message
and the decoded body as details (`None` in Python becomes `Option.none`). -/
structure ApiError where
  status : Nat
  message : String
  details : Option BodyVal

/-- The two failure kinds a CRM service call can raise:
`error_handler.ApiError` and `error_handler.ValidationError` (whose payload
is its message string). -/
inductive AgentErr where
  | api (e : ApiError)
  | validation (msg : String)

/-! ## Resilient transport: `utils/api_client.py`, `AsyncApiClient.request`

One HTTP attempt either raises a transport-level exception
(`httpx.HTTPError` / `asyncio.TimeoutError`, the tenacity retry classes) or
yields a raw response.  The environment is an oracle mapping the attempt
index to its outcome; `request` is the tenacity-decorated loop
(`stop_after_attempt(3)`, `reraise=True`, retry only on the transport
exception types). -/

/-- A raw HTTP response before decoding: status code, `Content-Type` header,
the result of `response.json()` (`none` when parsing raises `ValueError`)
and `response.text`. -/
structure RawResponse where
  status : Nat
  contentType : String
  jsonBody : Option JsonVal
  text : String

/-- Outcome of one underlying HTTP attempt. -/
inductive AttemptOutcome where
  | transient (msg : String)
  | response (r : RawResponse)

/-- Whether `needle` is a prefix of `hay`, on character lists. -/
def leadsChars : List Char → List Char → Bool
  | [], _ => true
  | _ :: _, [] => false
  | a :: as, b :: bs => a = b && leadsChars as bs

/-- Whether `needle` occurs inside `hay`, on character lists. -/
def containsChars (hay needle : List Char) : Bool :=
  match hay with
  | [] => needle.isEmpty
  | _ :: rest => leadsChars needle hay || containsChars rest needle

/-- Python `needle in haystack` on strings (substring test). -/
def strContains (haystack needle : String) : Bool :=
  containsChars haystack.data needle.data

/-- Body decoding from `AsyncApiClient.request`: if the content type declares
JSON, use `response.json()` and fall back to `response.text` on parse
failure; non-JSON content types always yield raw text. -/
def decodeBody (r : RawResponse) : BodyVal :=
  if strContains r.contentType "application/json" then
    match r.jsonBody with
    | some j => .json j
    | none => .text r.text
  else .text r.text

/-- Result of `AsyncApiClient.request`: the decoded body on a 2xx response,
an `ApiError` on any other status, or the re-raised transport exception once
the 3 attempts are exhausted (`reraise=True`). -/
inductive RequestOutcome where
  | ok (body : BodyVal)
  | apiError (e : ApiError)
  | transientExhausted (msg : String)

/-- One pass through the body of `AsyncApiClient.request` for the attempt
outcome `a`: a response is decoded and classified (2xx returns the body,
anything else raises `ApiError(status, "HTTP request failed", details=body)`),
a transport exception is re-raised for tenacity to see. -/
def classifyAttempt (a : AttemptOutcome) : RequestOutcome :=
  match a with
  | .transient msg => .transientExhausted msg
  | .response r =>
    if 200 ≤ r.status ∧ r.status < 300 then .ok (decodeBody r)
    else .apiError ⟨r.status, "HTTP request failed", some (decodeBody r)⟩

/-- The tenacity retry loop around `request`.  `idx` is the index of the
current attempt, `remaining` the number of attempts tenacity still allows
(3 at the top call).  Only transport-level outcomes are retried; an
`ApiError` raised from a non-2xx response is not in the retry classes and
propagates at once.  Returns the outcome and the total number of attempts
made. -/
def requestAttempts (oracle : Nat → AttemptOutcome) : Nat → Nat → RequestOutcome × Nat
  | idx, 0 => (.transientExhausted "", idx)
  | idx, remaining + 1 =>
    match oracle idx with
    | .transient msg =>
      if remaining = 0 then (.transientExhausted msg, idx + 1)
      else requestAttempts oracle (idx + 1) remaining
    | .response r => (classifyAttempt (.response r), idx + 1)

/-- `AsyncApiClient.request` under attempt oracle `oracle`: up to 3 total
attempts. -/
def request (oracle : Nat → AttemptOutcome) : RequestOutcome × Nat :=
  requestAttempts oracle 0 3

/-! ## Python value helpers

Truthiness of `Optional[str]` (`if x:`) and the `format(x, "g")` float
formatting used by `create_deal`'s default name.  Amounts are modelled as
exact rationals; `pythonFormatG` mirrors `%g` with its default precision of
6 significant digits: fixed notation with trailing zeros stripped when the
decimal exponent is in `[-4, 6)`, scientific notation otherwise. -/

/-- Python truthiness of an `Optional[str]`: `None` and `""` are falsy. -/
def truthyOpt : Option String → Bool
  | none => false
  | some s => !(s == "")

/-- Strip trailing `'0'` characters. -/
def dropTrailingZeros (l : List Char) : List Char :=
  (l.reverse.dropWhile (· = '0')).reverse

/-- Number of decimal digits of `n` (1 for 0). -/
def digitsLen (n : Nat) : Nat :=
  (Nat.toDigits 10 n).length

/-- `a / b` rounded to the nearest integer, ties to even (Python rounding),
for `b ≠ 0`, in plain natural arithmetic. -/
def halfEvenDiv (a b : Nat) : Nat :=
  let n := a / b
  let r := a % b
  if 2 * r < b then n
  else if b < 2 * r then n + 1
  else if n % 2 = 0 then n else n + 1

/-- Least `k ≥ 1` with `num * 10 ^ k ≥ den`, for `0 < num < den`,
computed with fuel. -/
def negExpAux : Nat → Nat → Nat → Nat
  | _, _, 0 => 1
  | num, den, fuel + 1 => if den ≤ num * 10 then 1 else 1 + negExpAux (num * 10) den fuel

/-- Decimal exponent of the positive rational `num / den`: the unique `e`
with `10 ^ e ≤ num / den < 10 ^ (e + 1)`. -/
def decExpPos (num den : Nat) : ℤ :=
  if den ≤ num then (digitsLen (num / den) : ℤ) - 1
  else -(negExpAux num den (digitsLen den + 1) : ℤ)

/-- Round the positive rational `num / den` to 6 significant digits: returns
the digit block `N ∈ [10^5, 10^6)` and the decimal exponent, handling the
rounding-carry case. -/
def sixDigits (num den : Nat) : Nat × ℤ :=
  let e := decExpPos num den
  let n :=
    if e ≤ 5 then halfEvenDiv (num * 10 ^ (5 - e).toNat) den
    else halfEvenDiv num (den * 10 ^ (e - 5).toNat)
  if n = 10 ^ 6 then (10 ^ 5, e + 1) else (n, e)

/-- Fixed-point rendering of a 6-digit block at exponent `e ∈ [-4, 6)`,
trailing zeros stripped. -/
def renderFixed (digits : List Char) (e : ℤ) : String :=
  if 0 ≤ e then
    let ip := digits.take (e.toNat + 1)
    let fp := dropTrailingZeros (digits.drop (e.toNat + 1))
    if fp.isEmpty then String.mk ip else String.mk ip ++ "." ++ String.mk fp
  else
    "0." ++ String.mk (List.replicate (-e - 1).toNat '0')
      ++ String.mk (dropTrailingZeros digits)

/-- Scientific rendering of a 6-digit block, exponent padded to two digits
as Python does (`1e-05`, `1.23457e+06`). -/
def renderSci (digits : List Char) (e : ℤ) : String :=
  let head := String.mk (digits.take 1)
  let tail := dropTrailingZeros (digits.drop 1)
  let mant := if tail.isEmpty then head else head ++ "." ++ String.mk tail
  let sign := if e < 0 then "-" else "+"
  let a := e.natAbs
  let es := if a < 10 then "0" ++ toString a else toString a
  mant ++ "e" ++ sign ++ es

/-- `format(num / den, "g")` for a positive rational given in lowest terms. -/
def pythonFormatGPos (num den : Nat) : String :=
  let p := sixDigits num den
  let digits := Nat.toDigits 10 p.1
  if -4 ≤ p.2 ∧ p.2 < 6 then renderFixed digits p.2 else renderSci digits p.2

/-- Python `format(q, "g")` (default precision 6), on exact rationals. -/
def pythonFormatG (q : ℚ) : String :=
  if q.num = 0 then "0"
  else if q.num < 0 then "-" ++ pythonFormatGPos q.num.natAbs q.den
  else pythonFormatGPos q.num.natAbs q.den

/-! ## CRM record service: `agents/hubspot_agent.py`

The pydantic input models become structures of `Option`s; HTTP calls made
through `AsyncApiClient` become calls into a `CrmRemote` interface, a record
of response functions threading an abstract environment state `σ`.  Each
interface call either returns the decoded 2xx body (already in the typed
shape the agent reads out of the dict) or raises `ApiError`, exactly the
two outcomes `AsyncApiClient.request` has for the agent (a transport
exception exhausting its retries is neither and is not modelled here). -/

/-- `hubspot_agent.CreateContactInput`. -/
structure CreateContactInput where
  email : String
  first_name : Option String := none
  last_name : Option String := none
  phone : Option String := none
deriving Repr, DecidableEq

/-- `hubspot_agent.UpdateContactInput`. -/
structure UpdateContactInput where
  email : String
  first_name : Option String := none
  last_name : Option String := none
  phone : Option String := none
deriving Repr, DecidableEq

/-- `hubspot_agent.CreateDealInput`. -/
structure CreateDealInput where
  name : Option String := none
  amount : Option ℚ := none
  stage : Option String := none
  pipeline : Option String := none
  associated_contact_email : Option String := none
deriving Repr, DecidableEq

/-- `hubspot_agent.UpdateDealInput`. -/
structure UpdateDealInput where
  deal_id : String
  name : Option String := none
  amount : Option ℚ := none
  stage : Option String := none
  pipeline : Option String := none
deriving Repr, DecidableEq

/-- A deal property value: string-valued or the numeric amount. -/
inductive PropVal where
  | s (v : String)
  | n (v : ℚ)
deriving Repr, DecidableEq

/-- A contact object as the remote returns it (an entry of a search
`results` list, or the body of a create/patch response): the `"id"` key may
be absent, which the agent reads with `.get("id")`. -/
structure ContactHit where
  id : Option String
  properties : List (String × String)
deriving Repr, DecidableEq

/-- A deal object as the remote returns it; `create_deal` reads
`.get("id")`. -/
structure DealResp where
  id : Option String
  properties : List (String × PropVal)
deriving Repr, DecidableEq

/-- What `create_contact` returns: the create-response dict on the fresh
path (no `"status"` key), or the dict the conflict path builds with
`status = "existing"`. -/
structure ContactResult where
  id : Option String
  properties : List (String × String)
  status : Option String
deriving Repr, DecidableEq

/-- The remote CRM API surface the agent calls, as response functions over
an environment state `σ`.  Each call models one `AsyncApiClient` request:
`Except.ok` is the decoded 2xx body, `Except.error` a raised `ApiError`. -/
structure CrmRemote (σ : Type) where
  postSearchContacts : σ → String → Except ApiError (List ContactHit) × σ
  postCreateContact : σ → List (String × String) → Except ApiError ContactHit × σ
  postCreateDeal : σ → List (String × PropVal) → Except ApiError DealResp × σ
  patchContact : σ → String → List (String × String) → Except ApiError ContactHit × σ
  patchDeal : σ → String → List (String × PropVal) → Except ApiError DealResp × σ
  putAssoc : σ → String → String → Except ApiError Unit × σ

/-- `HubSpotAgent._get_contact_by_email`: POST the search query (filter on
exact email, limit 1) and return the first entry of `results`, or `none`. -/
def getContactByEmail (R : CrmRemote σ) (s : σ) (email : String) :
    Except ApiError (Option ContactHit) × σ :=
  match R.postSearchContacts s email with
  | (.error e, s1) => (.error e, s1)
  | (.ok results, s1) => (.ok results.head?, s1)

/-- `HubSpotAgent._find_contact_id_by_email`: the found contact's
`.get("id")`, or `none` when no contact was found. -/
def findContactIdByEmail (R : CrmRemote σ) (s : σ) (email : String) :
    Except ApiError (Option String) × σ :=
  match getContactByEmail R s email with
  | (.error e, s1) => (.error e, s1)
  | (.ok none, s1) => (.ok none, s1)
  | (.ok (some c), s1) => (.ok c.id, s1)

/-- A property included under Python truthiness (`if payload.x:`). -/
def truthyField (key : String) : Option String → List (String × String)
  | none => []
  | some v => if v == "" then [] else [(key, v)]

/-- A property included under `is not None`. -/
def givenField (key : String) : Option String → List (String × String)
  | none => []
  | some v => [(key, v)]

/-- The `properties` dict `create_contact` builds: email always, the other
fields under truthiness. -/
def createContactProps (p : CreateContactInput) : List (String × String) :=
  [("email", p.email)]
    ++ truthyField "firstname" p.first_name
    ++ truthyField "lastname" p.last_name
    ++ truthyField "phone" p.phone

/-- `HubSpotAgent.create_contact`: POST the create; on `ApiError` with
status 409 look the contact up by email and return it tagged
`status="existing"`, re-raising the original error when the lookup finds
nothing; any other `ApiError` propagates. -/
def create_contact (R : CrmRemote σ) (s : σ) (p : CreateContactInput) :
    Except AgentErr ContactResult × σ :=
  match R.postCreateContact s (createContactProps p) with
  | (.ok res, s1) => (.ok { id := res.id, properties := res.properties, status := none }, s1)
  | (.error err, s1) =>
    if err.status = 409 then
      match getContactByEmail R s1 p.email with
      | (.error e2, s2) => (.error (.api e2), s2)
      | (.ok (some existing), s2) =>
        (.ok { id := existing.id, properties := existing.properties,
               status := some "existing" }, s2)
      | (.ok none, s2) => (.error (.api err), s2)
    else (.error (.api err), s1)

/-- The sparse-patch `properties` dict `update_contact` builds
(`is not None` checks). -/
def updateContactProps (p : UpdateContactInput) : List (String × String) :=
  givenField "firstname" p.first_name
    ++ givenField "lastname" p.last_name
    ++ givenField "phone" p.phone

/-- `HubSpotAgent.update_contact`: resolve the email to an id
(`require(contact_id is not None)` raises `ValidationError` on a miss,
before any PATCH), then PATCH the sparse property dict. -/
def update_contact (R : CrmRemote σ) (s : σ) (p : UpdateContactInput) :
    Except AgentErr ContactHit × σ :=
  match findContactIdByEmail R s p.email with
  | (.error e, s1) => (.error (.api e), s1)
  | (.ok none, s1) =>
    (.error (.validation ("Contact not found for email " ++ p.email)), s1)
  | (.ok (some cid), s1) =>
    match R.patchContact s1 cid (updateContactProps p) with
    | (.error e, s2) => (.error (.api e), s2)
    | (.ok res, s2) => (.ok res, s2)

/-- The default-name derivation inside `create_deal`, evaluated when the
supplied name is falsy: associated email first (truthiness), then
`amount is not None`, then the fixed fallback. -/
def defaultDealName (p : CreateDealInput) : String :=
  if truthyOpt p.associated_contact_email then
    "Deal for " ++ p.associated_contact_email.getD ""
  else
    match p.amount with
    | some a => "Deal " ++ pythonFormatG a
    | none => "Untitled Deal"

/-- `deal_name` after the `if not deal_name:` defaulting block of
`create_deal`. -/
def resolvedDealName (p : CreateDealInput) : String :=
  match p.name with
  | none => defaultDealName p
  | some s => if s == "" then defaultDealName p else s

/-- The `properties` dict `create_deal` builds: `dealname` always, `amount`
under `is not None`, `dealstage`/`pipeline` under truthiness. -/
def createDealProps (p : CreateDealInput) : List (String × PropVal) :=
  [("dealname", .s (resolvedDealName p))]
    ++ (match p.amount with | some a => [("amount", .n a)] | none => [])
    ++ (match p.stage with
        | some v => if v == "" then [] else [("dealstage", PropVal.s v)]
        | none => [])
    ++ (match p.pipeline with
        | some v => if v == "" then [] else [("pipeline", PropVal.s v)]
        | none => [])

/-- `HubSpotAgent.create_deal`: POST the deal; then, when an associated
contact email was supplied, resolve it (`require` raises `ValidationError`
on a miss — the created deal is not returned and no rollback call is made)
and PUT the association path built from `create_resp.get("id")` (Python
renders a missing id as the string `"None"`). -/
def create_deal (R : CrmRemote σ) (s : σ) (p : CreateDealInput) :
    Except AgentErr DealResp × σ :=
  match R.postCreateDeal s (createDealProps p) with
  | (.error e, s1) => (.error (.api e), s1)
  | (.ok resp, s1) =>
    if truthyOpt p.associated_contact_email then
      let email := p.associated_contact_email.getD ""
      match findContactIdByEmail R s1 email with
      | (.error e, s2) => (.error (.api e), s2)
      | (.ok none, s2) =>
        (.error (.validation ("Contact not found for email " ++ email)), s2)
      | (.ok (some cid), s2) =>
        match R.putAssoc s2 (resp.id.getD "None") cid with
        | (.error e, s3) => (.error (.api e), s3)
        | (.ok _, s3) => (.ok resp, s3)
    else (.ok resp, s1)

/-- The sparse-patch `properties` dict `update_deal` builds (`is not None`
checks on all four fields). -/
def updateDealProps (p : UpdateDealInput) : List (String × PropVal) :=
  (match p.name with | some v => [("dealname", PropVal.s v)] | none => [])
    ++ (match p.amount with | some a => [("amount", PropVal.n a)] | none => [])
    ++ (match p.stage with | some v => [("dealstage", PropVal.s v)] | none => [])
    ++ (match p.pipeline with | some v => [("pipeline", PropVal.s v)] | none => [])

/-- `HubSpotAgent.update_deal`: PATCH the sparse property dict at the
caller-supplied id; no lookup. -/
def update_deal (R : CrmRemote σ) (s : σ) (p : UpdateDealInput) :
    Except AgentErr DealResp × σ :=
  match R.patchDeal s p.deal_id (updateDealProps p) with
  | (.error e, s1) => (.error (.api e), s1)
  | (.ok res, s1) => (.ok res, s1)

/-! ## The remote CRM system

Modelled from the spec: the remote platform is an external collaborator
(§6), so its behaviour is taken from the spec's words — at most one contact
per email, with a duplicate create reported as a 409 conflict (§3, §4.5);
search by exact email match with limit 1 (§4.3 lookup semantics);
association as a PUT on a fixed path (§6).  `RemoteState` is its state,
`specRemote` packages its endpoints as a `CrmRemote`. -/

/-- A contact stored in the remote system. -/
structure RemoteContact where
  id : String
  email : String
  props : List (String × String)
deriving Repr, DecidableEq

/-- A deal stored in the remote system. -/
structure RemoteDeal where
  id : String
  props : List (String × PropVal)
deriving Repr, DecidableEq

/-- Modelled from the spec: the remote CRM platform's state — its contacts,
deals, deal-to-contact associations, and an id counter. -/
structure RemoteState where
  contacts : List RemoteContact
  deals : List RemoteDeal
  assocs : List (String × String)
  nextId : Nat
deriving Repr, DecidableEq

/-- The empty remote system. -/
def emptyRemote : RemoteState := ⟨[], [], [], 0⟩

/-- A stored contact as a search hit / response body. -/
def hitOf (c : RemoteContact) : ContactHit :=
  ⟨some c.id, c.props⟩

/-- Modelled from the spec: contact search returns the single exact-email
match or an empty `results` list. -/
def specSearch (s : RemoteState) (email : String) :
    Except ApiError (List ContactHit) × RemoteState :=
  match s.contacts.find? (fun c => c.email = email) with
  | some c => (.ok [hitOf c], s)
  | none => (.ok [], s)

/-- Modelled from the spec: contact create enforces the at-most-one-contact
per-email invariant by answering 409 on a duplicate email; otherwise it
assigns a fresh opaque id and stores the contact. -/
def specCreateContact (s : RemoteState) (props : List (String × String)) :
    Except ApiError ContactHit × RemoteState :=
  let email := ((props.lookup "email").getD "")
  if s.contacts.any (fun c => c.email = email) then
    (.error ⟨409, "HTTP request failed", some (.text "Contact already exists")⟩, s)
  else
    let c : RemoteContact := ⟨"contact-" ++ toString s.nextId, email, props⟩
    (.ok (hitOf c),
     { s with contacts := s.contacts ++ [c], nextId := s.nextId + 1 })

/-- Modelled from the spec: deal create assigns a fresh opaque id and
stores the deal. -/
def specCreateDeal (s : RemoteState) (props : List (String × PropVal)) :
    Except ApiError DealResp × RemoteState :=
  let d : RemoteDeal := ⟨"deal-" ++ toString s.nextId, props⟩
  (.ok ⟨some d.id, d.props⟩,
   { s with deals := s.deals ++ [d], nextId := s.nextId + 1 })

/-- Replace or insert one key of a property list (dict update). -/
def setProp (props : List (String × α)) (key : String) (v : α) :
    List (String × α) :=
  if props.any (fun kv => kv.1 = key) then
    props.map (fun kv => if kv.1 = key then (key, v) else kv)
  else props ++ [(key, v)]

/-- Modelled from the spec: contact patch merges the supplied sparse
property dict into the stored contact, 404 when the id is unknown. -/
def specPatchContact (s : RemoteState) (cid : String)
    (props : List (String × String)) : Except ApiError ContactHit × RemoteState :=
  match s.contacts.find? (fun c => c.id = cid) with
  | none => (.error ⟨404, "HTTP request failed", some (.text "Not found")⟩, s)
  | some c =>
    let merged := props.foldl (fun acc kv => setProp acc kv.1 kv.2) c.props
    let c1 : RemoteContact := { c with props := merged }
    (.ok (hitOf c1),
     { s with contacts :=
         s.contacts.map (fun x => if x.id = cid then c1 else x) })

/-- Modelled from the spec: deal patch merges the supplied sparse property
dict into the stored deal, 404 when the id is unknown. -/
def specPatchDeal (s : RemoteState) (did : String)
    (props : List (String × PropVal)) : Except ApiError DealResp × RemoteState :=
  match s.deals.find? (fun d => d.id = did) with
  | none => (.error ⟨404, "HTTP request failed", some (.text "Not found")⟩, s)
  | some d =>
    let merged := props.foldl (fun acc kv => setProp acc kv.1 kv.2) d.props
    let d1 : RemoteDeal := { d with props := merged }
    (.ok ⟨some d1.id, d1.props⟩,
     { s with deals := s.deals.map (fun x => if x.id = did then d1 else x) })

/-- Modelled from the spec: the association PUT records the
deal-to-contact link. -/
def specPutAssoc (s : RemoteState) (did cid : String) :
    Except ApiError Unit × RemoteState :=
  (.ok (), { s with assocs := s.assocs ++ [(did, cid)] })

/-- The spec-modelled remote CRM system as a `CrmRemote`. -/
def specRemote : CrmRemote RemoteState where
  postSearchContacts := specSearch
  postCreateContact := specCreateContact
  postCreateDeal := specCreateDeal
  patchContact := specPatchContact
  patchDeal := specPatchDeal
  putAssoc := specPutAssoc

/-- A remote whose create endpoint reports a conflict that its own search
index cannot see (the inconsistent-remote race of the spec's open
question in §9). -/
def inconsistentRemote : CrmRemote Unit where
  postSearchContacts := fun _ _ => (.ok [], ())
  postCreateContact := fun _ _ =>
    (.error ⟨409, "HTTP request failed", some (.text "conflict")⟩, ())
  postCreateDeal := fun _ _ => (.ok ⟨some "d", []⟩, ())
  patchContact := fun _ _ _ => (.ok ⟨none, []⟩, ())
  patchDeal := fun _ _ _ => (.ok ⟨none, []⟩, ())
  putAssoc := fun _ _ _ => (.ok (), ())

/-- Whether a service call returned a value rather than raising. -/
def returnedOk : Except AgentErr α → Bool
  | .ok _ => true
  | .error _ => false

/-! ## Coordinator: `agents/orchestrator_agent.py`

The tool wrappers built in `_build_agent` call the matching agent method
and do not catch anything — an `ApiError`/`ValidationError` raised by a
tool propagates out of the executor.  `OrchestratorAgent.run` wraps the
whole executor invocation in one `try`/`except`, turning an `ApiError`
into an `"API error …"` string and any other exception into a
`"Sorry, something went wrong: …"` string.  The plan walk itself lives in
the external tool-selection engine and is modelled from the spec: the
engine produces an ordered plan of typed operations (§4.4, glossary
"Plan"), consumed sequentially.  Notification is the
`send_confirmation_email` tool (`agents/email_agent.py`,
`send_confirmation`). -/

/-- `str` of a decoded JSON number (integers decode as `int`, everything
else via the shortest decimal; no claim exercises this corner). -/
def pyNumStr (q : ℚ) : String :=
  if q.den = 1 then toString q.num else pythonFormatG q

mutual

/-- `json.dumps` of a decoded JSON value (compact Python spelling). -/
def jsonDumps : JsonVal → String
  | .obj fs => "\x7b" ++ String.intercalate ", " (dumpFields fs) ++ "\x7d"
  | .arr xs => "[" ++ String.intercalate ", " (dumpElems xs) ++ "]"
  | .str s => "\"" ++ s ++ "\""
  | .num q => pyNumStr q
  | .boolean b => if b then "true" else "false"
  | .null => "null"

/-- Rendered `"key": value` members of a JSON object. -/
def dumpFields : List (String × JsonVal) → List String
  | [] => []
  | (k, v) :: fs => ("\"" ++ k ++ "\": " ++ jsonDumps v) :: dumpFields fs

/-- Rendered elements of a JSON array. -/
def dumpElems : List JsonVal → List String
  | [] => []
  | v :: xs => jsonDumps v :: dumpElems xs

end

/-- The `detail_str` computation in `OrchestratorAgent.run`'s
`except ApiError` arm: `json.dumps` for dict/list details, `str` for other
non-`None` details, else the error's message. -/
def detailStr (e : ApiError) : String :=
  match e.details with
  | some (.json (.obj fs)) => jsonDumps (.obj fs)
  | some (.json (.arr xs)) => jsonDumps (.arr xs)
  | some (.json (.str s)) => s
  | some (.json (.num q)) => pyNumStr q
  | some (.json (.boolean b)) => if b then "True" else "False"
  | some (.json .null) => e.message
  | some (.text t) => t
  | none => e.message

/-- The string `OrchestratorAgent.run` returns when the executor raises:
the `ApiError` arm and the catch-all arm (a `ValidationError`'s `str` is
its message). -/
def formatRunError : AgentErr → String
  | .api e =>
    "API error " ++ toString e.status ++ ": " ++ detailStr e
      ++ ". Please verify your credentials and permissions."
  | .validation m => "Sorry, something went wrong: " ++ m

/-- One typed operation of a plan: the five tools `_build_agent`
registers. -/
inductive Operation where
  | createContactOp (p : CreateContactInput)
  | updateContactOp (p : UpdateContactInput)
  | createDealOp (p : CreateDealInput)
  | updateDealOp (p : UpdateDealInput)
  | sendEmailOp (toAddr : Option String) (subject : Option String) (html : String)
deriving Repr, DecidableEq

/-- State of one coordinator run: the remote CRM system plus the bodies of
the confirmation emails handed to the notification collaborator. -/
structure OrchState where
  remote : RemoteState
  emails : List String
deriving Repr, DecidableEq

/-- One tool invocation: dispatch to the matching agent method against the
spec-modelled remote; the wrapper catches nothing, so the error (if any) is
returned for the caller to propagate.  `sendEmailOp` is
`EmailAgent.send_confirmation`: resolve the recipient
(`to_email or self.default_confirmation_recipient`, Python truthiness),
`require` one exists, then deliver (delivery modelled as recording the
body). -/
def execOp (defRecipient : Option String) (st : OrchState) :
    Operation → Except AgentErr Unit × OrchState
  | .createContactOp p =>
    let r := create_contact specRemote st.remote p
    (r.1.map (fun _ => ()), { st with remote := r.2 })
  | .updateContactOp p =>
    let r := update_contact specRemote st.remote p
    (r.1.map (fun _ => ()), { st with remote := r.2 })
  | .createDealOp p =>
    let r := create_deal specRemote st.remote p
    (r.1.map (fun _ => ()), { st with remote := r.2 })
  | .updateDealOp p =>
    let r := update_deal specRemote st.remote p
    (r.1.map (fun _ => ()), { st with remote := r.2 })
  | .sendEmailOp toAddr _subject html =>
    match (if truthyOpt toAddr then toAddr else defRecipient) with
    | none =>
      (.error (.validation
        "No recipient email provided or configured for confirmation"), st)
    | some _ => (.ok (), { st with emails := st.emails ++ [html] })

/-- Modelled from the spec: the external engine's ordered plan, invoked
tool by tool.  An exception raised by a tool propagates out of the
executor (the wrappers catch nothing), so the walk stops at the first
failing operation.  Returns the final state, the trace of attempted
operations each tagged with its outcome, and the escaped error if any. -/
def execPlan (defRecipient : Option String) :
    OrchState → List Operation →
    OrchState × List (Operation × Bool) × Option AgentErr
  | st, [] => (st, [], none)
  | st, op :: rest =>
    match execOp defRecipient st op with
    | (.ok _, st1) =>
      let r := execPlan defRecipient st1 rest
      (r.1, (op, true) :: r.2.1, r.2.2)
    | (.error e, st1) => (st1, [(op, false)], some e)

/-- `OrchestratorAgent.run`: one `try` around the whole executor
invocation.  When the plan runs to completion the LLM's summary text comes
back (modelled as the code's `result.get("output", "Done")` default, the
text itself being external); when a tool raises, the matching `except` arm
formats the single error string. -/
def runModel (defRecipient : Option String) (st : OrchState)
    (plan : List Operation) : String × OrchState × List (Operation × Bool) :=
  match execPlan defRecipient st plan with
  | (st1, tr, none) => ("Done", st1, tr)
  | (st1, tr, some e) => (formatRunError e, st1, tr)

/-! # Theorems -/

/-! Sanity checks of the `%g` model against Python outputs. -/

example : pythonFormatG (mkRat 85 2) = "42.5" := by decide
example : pythonFormatG (mkRat 100 1) = "100" := by decide
example : pythonFormatG (mkRat 1 10000) = "0.0001" := by decide
example : pythonFormatG (mkRat 1 100000) = "1e-05" := by decide
example : pythonFormatG (mkRat 12345670 1) = "1.23457e+07" := by decide
example : pythonFormatG (mkRat 0 1) = "0" := by decide
example : pythonFormatG (mkRat (-3) 2) = "-1.5" := by decide

/-- The retry loop makes at most `idx + fuel` attempts when entered at
attempt index `idx` with `fuel` attempts allowed. -/
theorem requestAttempts_count_le (oracle : Nat → AttemptOutcome) :
    ∀ (fuel idx : Nat), (requestAttempts oracle idx fuel).2 ≤ idx + fuel := by
  intro fuel
  induction fuel with
  | zero => intro idx; simp [requestAttempts]
  | succ n ih =>
    intro idx
    cases h : oracle idx with
    | transient msg =>
      by_cases hn : n = 0
      · subst hn
        simp [requestAttempts, h]
      · have step := ih (idx + 1)
        simp only [requestAttempts, h]
        simp only [hn, if_false]
        omega
    | response r =>
      simp only [requestAttempts, h]
      omega

/-- C4: a response with a status outside `[200, 300)` raises `ApiError`
carrying that status and the decoded body as details on the very attempt
that received it, with no retry — non-2xx responses are never classified
as transient, at whatever attempt they arrive, and in particular a first
attempt answered with such a response ends the call after exactly one
attempt. -/
theorem non2xx_raises_apierror_without_retry :
    (∀ (oracle : Nat → AttemptOutcome) (idx fuel : Nat) (r : RawResponse),
      oracle idx = .response r → ¬(200 ≤ r.status ∧ r.status < 300) →
      requestAttempts oracle idx (fuel + 1)
        = (.apiError ⟨r.status, "HTTP request failed", some (decodeBody r)⟩,
           idx + 1))
    ∧ (∀ (oracle : Nat → AttemptOutcome) (r : RawResponse),
      oracle 0 = .response r → ¬(200 ≤ r.status ∧ r.status < 300) →
      request oracle
        = (.apiError ⟨r.status, "HTTP request failed", some (decodeBody r)⟩, 1)) := by
  constructor
  · intro oracle idx fuel r hres hbad
    unfold requestAttempts
    simp [hres, classifyAttempt, hbad]
  · intro oracle r hres hbad
    show requestAttempts oracle 0 3 = _
    unfold requestAttempts
    simp [hres, classifyAttempt, hbad]

/-- Witness for C4: a first-attempt HTTP 500 with a plain-text body
surfaces immediately as `ApiError{status: 500}` after exactly one
attempt. -/
theorem non2xx_raises_apierror_without_retry_witness :
    request (fun _ => .response ⟨500, "text/plain", none, "boom"⟩)
      = (.apiError ⟨500, "HTTP request failed", some (.text "boom")⟩, 1) := by
  exact non2xx_raises_apierror_without_retry.2
    (fun _ => .response ⟨500, "text/plain", none, "boom"⟩)
    ⟨500, "text/plain", none, "boom"⟩ rfl (by decide)

/-- C5: every `request` call makes at most 3 attempts, and a call whose
first two attempts fail with transport-level (transient) errors and whose
third attempt receives a 2xx response returns that response's decoded
body, using exactly the 3 allowed attempts. -/
theorem request_at_most_three_attempts :
    (∀ oracle : Nat → AttemptOutcome, (request oracle).2 ≤ 3)
    ∧ (∀ (oracle : Nat → AttemptOutcome) (m0 m1 : String) (r : RawResponse),
      oracle 0 = .transient m0 → oracle 1 = .transient m1 →
      oracle 2 = .response r → 200 ≤ r.status ∧ r.status < 300 →
      request oracle = (.ok (decodeBody r), 3)) := by
  constructor
  · intro oracle
    simpa using requestAttempts_count_le oracle 3 0
  · intro oracle m0 m1 r h0 h1 h2 hgood
    show requestAttempts oracle 0 (2 + 1) = _
    rw [requestAttempts, h0]
    norm_num
    show requestAttempts oracle 1 (1 + 1) = _
    rw [requestAttempts, h1]
    norm_num
    show requestAttempts oracle 2 (0 + 1) = _
    rw [requestAttempts, h2]
    simp [classifyAttempt, hgood]

/-- Witness for C5: two timeouts then a 200 JSON response yield the
decoded body after 3 attempts. -/
theorem request_at_most_three_attempts_witness :
    request (fun i => if i < 2 then .transient "timeout"
        else .response ⟨200, "application/json", some .null, ""⟩)
      = (.ok (.json .null), 3) := by
  exact request_at_most_three_attempts.2
    (fun i => if i < 2 then .transient "timeout"
      else .response ⟨200, "application/json", some .null, ""⟩)
    "timeout" "timeout" ⟨200, "application/json", some .null, ""⟩
    rfl rfl rfl (by decide)

/-- The default deal name is never the empty string, whichever branch
produced it. -/
theorem defaultDealName_ne_empty (p : CreateDealInput) :
    defaultDealName p ≠ "" := by
  intro hcontra
  have hlen := congrArg String.length hcontra
  unfold defaultDealName at hlen
  by_cases h : truthyOpt p.associated_contact_email = true
  · rw [if_pos h] at hlen
    simp [String.length_append] at hlen
    exact absurd hlen.1 (by decide)
  · rw [if_neg h] at hlen
    cases ha : p.amount with
    | some a =>
      rw [ha] at hlen
      simp [String.length_append] at hlen
      exact absurd hlen.1 (by decide)
    | none =>
      rw [ha] at hlen
      exact absurd hlen (by decide)

/-- C6: when `create_deal` gets no name, the default is derived in
priority order — `"Deal for {email}"` when an associated contact email is
present, else `"Deal {amount}"` (Python `%g` formatting) when an amount is
present, else `"Untitled Deal"`; and concretely, no name with amount 42.5
and no email stores a deal named `"Deal 42.5"`. -/
theorem create_deal_default_name_priority :
    (∀ p : CreateDealInput, p.name = none →
      truthyOpt p.associated_contact_email = true →
      resolvedDealName p = "Deal for " ++ p.associated_contact_email.getD "")
    ∧ (∀ p : CreateDealInput, p.name = none →
      truthyOpt p.associated_contact_email = false →
      ∀ a : ℚ, p.amount = some a →
      resolvedDealName p = "Deal " ++ pythonFormatG a)
    ∧ (∀ p : CreateDealInput, p.name = none →
      truthyOpt p.associated_contact_email = false →
      p.amount = none → resolvedDealName p = "Untitled Deal")
    ∧ create_deal specRemote emptyRemote { amount := some (mkRat 85 2) }
      = (.ok ⟨some "deal-0",
            [("dealname", .s "Deal 42.5"), ("amount", .n (mkRat 85 2))]⟩,
         { emptyRemote with
             deals := [⟨"deal-0",
               [("dealname", .s "Deal 42.5"), ("amount", .n (mkRat 85 2))]⟩],
             nextId := 1 }) := by
  refine ⟨?_, ?_, ?_, ?_⟩
  · intro p h1 h2
    simp [resolvedDealName, defaultDealName, h1, h2]
  · intro p h1 h2 a ha
    simp [resolvedDealName, defaultDealName, h1, h2, ha]
  · intro p h1 h2 ha
    simp [resolvedDealName, defaultDealName, h1, h2, ha]
  · rfl

/-- Witness for C6: a supplied associated email wins the priority order. -/
theorem create_deal_default_name_priority_witness :
    resolvedDealName { associated_contact_email := some "a@b.com" }
      = "Deal for a@b.com" := by
  exact create_deal_default_name_priority.1
    { associated_contact_email := some "a@b.com" } rfl rfl

/-- C10: an empty-string `name` argument is falsy in the
`if not deal_name:` test, so `create_deal` applies the default-name rules
exactly as if the name were absent, and the empty string never becomes the
deal's name. -/
theorem create_deal_empty_name_defaults :
    (∀ p : CreateDealInput, p.name = some "" →
      resolvedDealName p = resolvedDealName { p with name := none })
    ∧ (∀ p : CreateDealInput, p.name = some "" → resolvedDealName p ≠ "") := by
  constructor
  · intro p h
    simp [resolvedDealName, defaultDealName, h]
  · intro p h
    rw [show resolvedDealName p = defaultDealName p by
      simp [resolvedDealName, h]]
    exact defaultDealName_ne_empty p

/-- Witness for C10: empty name plus an associated email falls through to
the email-derived default. -/
theorem create_deal_empty_name_defaults_witness :
    resolvedDealName { name := some "", associated_contact_email := some "a@b.com" }
      = resolvedDealName { name := none, associated_contact_email := some "a@b.com" } := by
  exact create_deal_empty_name_defaults.1
    { name := some "", associated_contact_email := some "a@b.com" } rfl

/-- C7: `update_contact` for an email whose lookup finds no contact fails
with `ValidationError` and leaves the remote system exactly as it was — no
mutation is issued and no record is created. -/
theorem update_contact_miss_raises (s : RemoteState) (p : UpdateContactInput)
    (h : s.contacts.find? (fun c => c.email = p.email) = none) :
    update_contact specRemote s p
      = (.error (.validation ("Contact not found for email " ++ p.email)), s) := by
  unfold update_contact findContactIdByEmail getContactByEmail
  simp [specRemote, specSearch, h]

/-- Witness for C7: updating a contact in the empty remote system fails
with `ValidationError` and changes nothing. -/
theorem update_contact_miss_raises_witness :
    update_contact specRemote emptyRemote
        { email := "x@y.z", first_name := some "Ada" }
      = (.error (.validation "Contact not found for email x@y.z"), emptyRemote) := by
  exact update_contact_miss_raises emptyRemote
    { email := "x@y.z", first_name := some "Ada" } rfl

/-- C3: a 409 conflict on contact creation followed by a successful
lookup-by-email returns the existing record tagged `status="existing"`
instead of failing (first conjunct, over any remote behaviour); hence,
against the spec-modelled remote, creating the same email twice returns
the same id both times, the second call tagged `existing` (second
conjunct). -/
theorem create_contact_idempotent :
    (∀ {σ : Type} (R : CrmRemote σ) (s s1 s2 : σ) (p : CreateContactInput)
        (err : ApiError) (c : ContactHit),
      R.postCreateContact s (createContactProps p) = (.error err, s1) →
      err.status = 409 →
      getContactByEmail R s1 p.email = (.ok (some c), s2) →
      create_contact R s p
        = (.ok { id := c.id, properties := c.properties,
                 status := some "existing" }, s2))
    ∧ (∀ (s : RemoteState) (p : CreateContactInput),
      s.contacts.any (fun c => c.email = p.email) = false →
      ∃ i : String,
        (create_contact specRemote s p).1
          = .ok { id := some i, properties := createContactProps p,
                  status := none }
        ∧ (create_contact specRemote (create_contact specRemote s p).2 p).1
          = .ok { id := some i, properties := createContactProps p,
                  status := some "existing" }) := by
  constructor
  · intro σ R s s1 s2 p err c hpost h409 hlookup
    unfold create_contact
    rw [hpost]
    simp [h409, hlookup]
  · intro s p hfresh
    refine ⟨"contact-" ++ toString s.nextId, ?_, ?_⟩
    · unfold create_contact
      simp [specRemote, specCreateContact, createContactProps, hfresh, hitOf]
    · have hfirst :
          (create_contact specRemote s p).2
            = { s with
                contacts := s.contacts
                  ++ [⟨"contact-" ++ toString s.nextId, p.email,
                      createContactProps p⟩],
                nextId := s.nextId + 1 } := by
        unfold create_contact
        simp [specRemote, specCreateContact, createContactProps, hfresh]
      rw [hfirst]
      unfold create_contact getContactByEmail
      have hdup :
          (s.contacts
            ++ [(⟨"contact-" ++ toString s.nextId, p.email,
                createContactProps p⟩ : RemoteContact)]).any
              (fun c => c.email = p.email) = true := by
        simp
      have hmiss : s.contacts.find? (fun c => decide (c.email = p.email)) = none := by
        rw [List.find?_eq_none]
        intro x hx
        simpa using (List.any_eq_false.mp hfresh) x hx
      simp [specRemote, specCreateContact, specSearch, createContactProps,
        hdup, hmiss, hitOf]

/-- Witness for C3: both conjuncts at concrete inputs — an inconsistent
remote is not needed here, only the spec-modelled one starting empty. -/
theorem create_contact_idempotent_witness :
    (create_contact specRemote emptyRemote { email := "a@b.com" }).1
      = .ok { id := some "contact-0", properties := [("email", "a@b.com")],
              status := none }
    ∧ (create_contact specRemote
        (create_contact specRemote emptyRemote { email := "a@b.com" }).2
        { email := "a@b.com" }).1
      = .ok { id := some "contact-0", properties := [("email", "a@b.com")],
              status := some "existing" } := by
  obtain ⟨i, h1, h2⟩ :=
    create_contact_idempotent.2 emptyRemote { email := "a@b.com" } rfl
  have hcalc : (create_contact specRemote emptyRemote { email := "a@b.com" }).1
      = .ok { id := some "contact-0", properties := [("email", "a@b.com")],
              status := none } := rfl
  have hid : some "contact-0" = some i :=
    congrArg (fun r => match r with | Except.ok c => c.id | Except.error _ => none)
      (hcalc.symm.trans h1)
  have hi : i = "contact-0" := (Option.some.inj hid).symm
  rw [hi] at h1 h2
  exact ⟨h1, h2⟩

/-- C8: when contact creation reports a 409 conflict but the follow-up
lookup-by-email finds nothing, `create_contact` re-raises the original
conflict `ApiError` as a terminal failure — it never returns a
synthesized record. -/
theorem create_contact_conflict_lookup_miss_reraises
    {σ : Type} (R : CrmRemote σ) (s s1 s2 : σ) (p : CreateContactInput)
    (err : ApiError)
    (hpost : R.postCreateContact s (createContactProps p) = (.error err, s1))
    (h409 : err.status = 409)
    (hlookup : getContactByEmail R s1 p.email = (.ok none, s2)) :
    create_contact R s p = (.error (.api err), s2) := by
  unfold create_contact
  rw [hpost]
  simp [h409, hlookup]

/-- Witness for C8: against the inconsistent remote, the original 409
`ApiError` comes back unchanged. -/
theorem create_contact_conflict_lookup_miss_reraises_witness :
    create_contact inconsistentRemote () { email := "a@b.com" }
      = (.error (.api ⟨409, "HTTP request failed", some (.text "conflict")⟩),
         ()) := by
  exact create_contact_conflict_lookup_miss_reraises inconsistentRemote
    () () () { email := "a@b.com" }
    ⟨409, "HTTP request failed", some (.text "conflict")⟩ rfl rfl rfl

/-- C9: the `update_contact` and `update_deal` mutation payloads are
sparse patches — each updatable field appears exactly when the caller
provided it (non-null), with the provided value, and no other key ever
appears. -/
theorem update_payload_sparse :
    (∀ p : UpdateContactInput,
      (updateContactProps p).lookup "firstname" = p.first_name
      ∧ (updateContactProps p).lookup "lastname" = p.last_name
      ∧ (updateContactProps p).lookup "phone" = p.phone
      ∧ (updateContactProps p).all
          (fun kv => kv.1 == "firstname" || kv.1 == "lastname"
            || kv.1 == "phone") = true)
    ∧ (∀ p : UpdateDealInput,
      (updateDealProps p).lookup "dealname" = p.name.map PropVal.s
      ∧ (updateDealProps p).lookup "amount" = p.amount.map PropVal.n
      ∧ (updateDealProps p).lookup "dealstage" = p.stage.map PropVal.s
      ∧ (updateDealProps p).lookup "pipeline" = p.pipeline.map PropVal.s
      ∧ (updateDealProps p).all
          (fun kv => kv.1 == "dealname" || kv.1 == "amount"
            || kv.1 == "dealstage" || kv.1 == "pipeline") = true) := by
  constructor
  · intro p
    rcases p with ⟨e, fn, ln, ph⟩
    cases fn <;> cases ln <;> cases ph <;>
      simp [updateContactProps, givenField, List.lookup]
  · intro p
    rcases p with ⟨i, nm, am, stg, pl⟩
    cases nm <;> cases am <;> cases stg <;> cases pl <;>
      simp [updateDealProps, List.lookup]

/-- Witness for C9: a patch providing first name and phone but not last
name carries exactly those two keys. -/
theorem update_payload_sparse_witness :
    (updateContactProps
        { email := "e@x.io", first_name := some "Ada", phone := some "7" }).lookup
        "firstname" = some "Ada"
    ∧ (updateContactProps
        { email := "e@x.io", first_name := some "Ada", phone := some "7" }).lookup
        "lastname" = none
    ∧ (updateContactProps
        { email := "e@x.io", first_name := some "Ada", phone := some "7" }).lookup
        "phone" = some "7"
    ∧ (updateContactProps
        { email := "e@x.io", first_name := some "Ada", phone := some "7" }).all
        (fun kv => kv.1 == "firstname" || kv.1 == "lastname"
          || kv.1 == "phone") = true := by
  exact update_payload_sparse.1
    { email := "e@x.io", first_name := some "Ada", phone := some "7" }

/-- C1 counterexample: on the spec-modelled remote holding no contacts,
`create_deal` with an associated email succeeds remotely in creating the
deal, but the call's return value is the raised `ValidationError` — the
created deal record is not returned to the caller, contradicting the
claim that it is returned alongside the error. -/
theorem create_deal_assoc_miss_counterexample :
    (create_deal specRemote emptyRemote
        { associated_contact_email := some "a@b.com" }).1
      = .error (.validation "Contact not found for email a@b.com")
    ∧ returnedOk (create_deal specRemote emptyRemote
        { associated_contact_email := some "a@b.com" }).1 = false :=
  ⟨rfl, rfl⟩

/-- C1 (amended): when the post-creation association lookup finds no
contact, `create_deal` raises `ValidationError` for the association step
without returning the created deal; the deal is not rolled back — it
remains stored in the remote system under its assigned id, and nothing
else about the remote state changes. -/
theorem create_deal_assoc_miss_raises_deal_kept (s : RemoteState)
    (p : CreateDealInput)
    (hassoc : truthyOpt p.associated_contact_email = true)
    (hmiss : s.contacts.find?
        (fun c => c.email = p.associated_contact_email.getD "") = none) :
    create_deal specRemote s p
      = (.error (.validation ("Contact not found for email "
            ++ p.associated_contact_email.getD "")),
         { s with
             deals := s.deals
               ++ [⟨"deal-" ++ toString s.nextId, createDealProps p⟩],
             nextId := s.nextId + 1 }) := by
  unfold create_deal findContactIdByEmail getContactByEmail
  simp [specRemote, specCreateDeal, specSearch, hassoc, hmiss]

/-- Witness for C1's amended claim: the concrete run keeps the deal in the
remote system while raising. -/
theorem create_deal_assoc_miss_raises_deal_kept_witness :
    create_deal specRemote emptyRemote
        { associated_contact_email := some "b@c.com" }
      = (.error (.validation "Contact not found for email b@c.com"),
         ⟨[], [⟨"deal-0", [("dealname", PropVal.s "Deal for b@c.com")]⟩],
          [], 1⟩) := by
  exact create_deal_assoc_miss_raises_deal_kept emptyRemote
    { associated_contact_email := some "b@c.com" } rfl rfl

/-- Appending a failing operation to a successfully executed prefix makes
the whole plan walk stop there: the suffix is never attempted and the
error escapes. -/
theorem execPlan_mid (defR : Option String) :
    ∀ (pre : List Operation) (st st1 st2 : OrchState) (post : List Operation)
      (op : Operation) (tr : List (Operation × Bool)) (e : AgentErr),
      execPlan defR st pre = (st1, tr, none) →
      execOp defR st1 op = (.error e, st2) →
      execPlan defR st (pre ++ op :: post) = (st2, tr ++ [(op, false)], some e) := by
  intro pre
  induction pre with
  | nil =>
    intro st st1 st2 post op tr e hpre hop
    simp only [execPlan, Prod.mk.injEq] at hpre
    obtain ⟨h1, h2, _⟩ := hpre
    subst h1
    subst h2
    simp [execPlan, hop]
  | cons q qs ih =>
    intro st st1 st2 post op tr e hpre hop
    rcases hq : execOp defR st q with ⟨res, stq⟩
    cases res with
    | error e1 =>
      simp [execPlan, hq] at hpre
    | ok u =>
      simp only [execPlan, hq, Prod.mk.injEq] at hpre
      rcases hr : execPlan defR stq qs with ⟨stm, trm, errm⟩
      rw [hr] at hpre
      obtain ⟨h1, h2, h3⟩ := hpre
      subst h1
      subst h3
      have step := ih stq stm st2 post op trm e hr hop
      simp only [List.cons_append, execPlan, hq, step]
      simp [← h2, step]

/-- C2 counterexample: in a four-step engine plan (three CRM operations
followed by the notification step) whose second operation raises
`ValidationError`, the error escapes the executor and `run`'s outer
`except` turns the whole run into one generic error string — the third
operation is never executed, the notification is never invoked (no email
recorded), and no summary with 2 successes and 1 failure exists. -/
theorem run_plan_failure_counterexample :
    runModel (some "ops@x.com") ⟨emptyRemote, []⟩
        [Operation.createContactOp { email := "a@b.com" },
         Operation.updateContactOp
           { email := "missing@x.com", first_name := some "Z" },
         Operation.createDealOp { name := some "D" },
         Operation.sendEmailOp none none "summary"]
      = ("Sorry, something went wrong: Contact not found for email missing@x.com",
         ⟨⟨[⟨"contact-0", "a@b.com", [("email", "a@b.com")]⟩], [], [], 1⟩, []⟩,
         [(Operation.createContactOp { email := "a@b.com" }, true),
          (Operation.updateContactOp
            { email := "missing@x.com", first_name := some "Z" }, false)]) := rfl

/-- C2 (amended): an `ApiError` or `ValidationError` raised by one
operation is not caught per-operation — it aborts the remaining plan and
the notification step (nothing after the failing operation is attempted),
and `run` returns the single formatted error string of its outer `except`
arms; operations before the failing one remain applied. -/
theorem run_aborts_on_operation_error (defR : Option String)
    (st st1 st2 : OrchState) (pre post : List Operation) (op : Operation)
    (tr : List (Operation × Bool)) (e : AgentErr)
    (hpre : execPlan defR st pre = (st1, tr, none))
    (hop : execOp defR st1 op = (.error e, st2)) :
    runModel defR st (pre ++ op :: post)
      = (formatRunError e, st2, tr ++ [(op, false)]) := by
  unfold runModel
  rw [execPlan_mid defR pre st st1 st2 post op tr e hpre hop]

/-- Witness for C2's amended claim: a failing first operation aborts a
plan whose suffix holds the notification step. -/
theorem run_aborts_on_operation_error_witness :
    runModel (some "ops@x.com") ⟨emptyRemote, []⟩
        ([] ++ Operation.updateContactOp { email := "m@x.com" }
           :: [Operation.sendEmailOp none none "s"])
      = ("Sorry, something went wrong: Contact not found for email m@x.com",
         ⟨emptyRemote, []⟩,
         [] ++ [(Operation.updateContactOp { email := "m@x.com" }, false)]) := by
  exact run_aborts_on_operation_error (some "ops@x.com") ⟨emptyRemote, []⟩
    ⟨emptyRemote, []⟩ ⟨emptyRemote, []⟩ [] [Operation.sendEmailOp none none "s"]
    (Operation.updateContactOp { email := "m@x.com" }) []
    (.validation "Contact not found for email m@x.com") rfl rfl
